import Mathlib

/-!
Verification of the symbol-network core subsystems (topology expansion, key
store, genesis assembly) against a shallow Lean embedding of the TypeScript
sources under src/. External collaborators (the symbol-sdk cryptographic
primitives, the symbol-bootstrap VotingUtils and YAML layer, the filesystem)
are modelled as deterministic functions with documented semantics; everything
else is translated directly from the source files.
-/

namespace SymbolNetwork

/-- Association-list lookup, first match wins. JS object property access
(`obj[key]`) on a string-keyed record is modelled by this lookup. -/
def lookupA {α : Type} (k : String) : List (String × α) → Option α
  | [] => none
  | (k', v) :: rest => if k' = k then some v else lookupA k rest

/-- Association-list update: replaces the value at an existing key in place, or
appends the pair at the end (JS object property assignment keeps the original
insertion position on update and appends new keys). -/
def insertA {α : Type} (k : String) (v : α) : List (String × α) → List (String × α)
  | [] => [(k, v)]
  | (k', v') :: rest => if k' = k then (k, v) :: rest else (k', v') :: insertA k v rest

/- ----------------------------------------------------------------
   src/model/NodeInformation.ts
   ---------------------------------------------------------------- -/

/-- The `NodeMetadataType` enum from src/model/NodeInformation.ts. -/
inductive NodeMetadataType
  | VotingDual
  | VotingPeer
  | VotingApi
  | HarvestingDual
  | HarvestingPeer
  | Services
  | Peer
  | Api
  | HarvestingDemo
  | VotingNonHarvestingPeer
deriving DecidableEq, Repr

/-- The `RestProtocol` enum from src/model/NodeInformation.ts. -/
inductive RestProtocol
  | HttpOnly
  | HttpsOnly
  | HttpAndHttps
deriving DecidableEq, Repr

/-- The `NodeTypeMetadata` interface from src/model/NodeInformation.ts.
`services` is optional in TypeScript and absent means false; `assembly` is the
optional fixed deployment-assembly override (`none` models `undefined`). -/
structure NodeTypeMetadata where
  name : String
  balances : List Nat
  api : Bool
  peer : Bool
  harvesting : Bool
  voting : Bool
  demo : Bool
  services : Bool := false
  nickName : String
  assembly : Option String := none
  suggestedCount : Nat
deriving DecidableEq, Repr

/-- The compiled-in `nodesMetadata` catalog from src/model/NodeInformation.ts,
entry by entry. -/
def nodesMetadata : NodeMetadataType → NodeTypeMetadata
  | .VotingDual =>
    { name := "Voting Dual", balances := [3000000, 150], voting := true, harvesting := true,
      demo := false, api := true, peer := true, nickName := "dual", suggestedCount := 3 }
  | .VotingPeer =>
    { name := "Voting Peer", balances := [3000000, 150], voting := true, harvesting := true,
      demo := false, api := false, peer := true, nickName := "beacon", suggestedCount := 3 }
  | .VotingApi =>
    { name := "Voting Api", balances := [3000000, 150], voting := true, harvesting := false,
      demo := false, api := false, peer := true, nickName := "beacon", suggestedCount := 3 }
  | .HarvestingDual =>
    { name := "Harvesting Dual", balances := [1000000, 150], voting := false, harvesting := true,
      demo := false, api := true, peer := true, nickName := "dual", suggestedCount := 3 }
  | .HarvestingPeer =>
    { name := "Harvesting Peer", balances := [1000000, 150], voting := false, harvesting := true,
      demo := false, api := false, peer := true, nickName := "beacon", suggestedCount := 3 }
  | .Services =>
    { name := "Services", balances := [], voting := false, harvesting := false,
      demo := false, api := false, peer := false, services := true, nickName := "services",
      assembly := some "services", suggestedCount := 1 }
  | .Peer =>
    { name := "Peer", balances := [1000, 0], voting := false, harvesting := false,
      demo := false, api := false, peer := true, nickName := "peer", suggestedCount := 3 }
  | .Api =>
    { name := "Api", balances := [1000, 0], voting := false, harvesting := false,
      demo := false, api := true, peer := false, nickName := "api", suggestedCount := 3 }
  | .HarvestingDemo =>
    { name := "Harvesting Demo", balances := [1000000, 150], voting := false, harvesting := true,
      demo := true, api := true, peer := true, assembly := some "demo", nickName := "demo",
      suggestedCount := 1 }
  | .VotingNonHarvestingPeer =>
    { name := "Non Harvesting Voting Peer", balances := [51000000, 0], voting := true,
      harvesting := false, demo := false, api := false, peer := true, nickName := "peer",
      suggestedCount := 3 }

/-- `NodeMetadataUtils.getAssembly` from src/model/NodeInformation.ts.
TypeScript tests `if (metadata.assembly)`, so an undefined or empty-string
override is falsy and falls through to the role-based rule. -/
def getAssembly (metadata : NodeTypeMetadata) : String :=
  match metadata.assembly with
  | some a =>
    if a ≠ "" then a
    else if metadata.api && metadata.peer then "dual" else if metadata.api then "api" else "peer"
  | none =>
    if metadata.api && metadata.peer then "dual" else if metadata.api then "api" else "peer"

/-- C8: for every catalog entry, with no explicit assembly override the
resolved deployment assembly follows the fixed rule (api and peer gives
"dual", api only gives "api", otherwise "peer"); with an override present the
override is returned unchanged. -/
theorem getAssembly_catalog_rule :
    ∀ t : NodeMetadataType,
      getAssembly (nodesMetadata t) =
        match (nodesMetadata t).assembly with
        | some a => a
        | none =>
          if (nodesMetadata t).api && (nodesMetadata t).peer then "dual"
          else if (nodesMetadata t).api then "api" else "peer" := by
  intro t
  cases t <;> rfl

/- ----------------------------------------------------------------
   src/services/NetworkConfigurationService.ts - LocalFileKeyStore
   ---------------------------------------------------------------- -/

/-- The symbol-sdk `Account` value type: private key plus the public key and
address deterministically derived from it (the cryptographic derivation itself
is an external collaborator; it is modelled as an injective tagging). -/
structure Account where
  privateKey : String
  publicKey : String
  address : String
deriving DecidableEq, Repr

deriving instance DecidableEq for Except

/-- Model of the symbol-sdk voting/account public-key derivation: a
deterministic injective function of the private key. -/
def pubOfPriv (privateKey : String) : String :=
  "pub-" ++ privateKey

/-- Model of symbol-sdk `Account.createFromPrivateKey`: the account is a
deterministic function of the private key and network type. -/
def createFromPrivateKey (privateKey : String) (networkType : Nat) : Account :=
  { privateKey := privateKey,
    publicKey := pubOfPriv privateKey,
    address := "addr-" ++ toString networkType ++ "-" ++ privateKey }

/-- The `StoredAccount` interface of the key store. -/
structure StoredAccount where
  privateKey : String
  publicKey : String
  address : String
deriving DecidableEq, Repr

/-- A voting key file's decoded content, as returned by the external
`VotingUtils.readVotingFile`: the voting public key and the covered epoch
range. The opaque signed byte blob (and its base64 encoding, a bijection) is
modelled by this structured value directly. -/
structure VotingFileBytes where
  publicKey : String
  startEpoch : Nat
  endEpoch : Nat
deriving DecidableEq, Repr

/-- Model of the external `VotingUtils.createVotingFile(privateKey, start,
end)`: a signed file covering exactly the requested range, embedding the
voting public key derived from the private key. -/
def createVotingFile (privateKey : String) (startEpoch endEpoch : Nat) : VotingFileBytes :=
  { publicKey := pubOfPriv privateKey, startEpoch := startEpoch, endEpoch := endEpoch }

/-- Model of the external `VotingUtils.readVotingFile`: decodes the stored
bytes back into the voting key account data. -/
def readVotingFile (bytes : VotingFileBytes) : VotingFileBytes :=
  bytes

/-- A stored `votingFiles` entry: public key plus the (base64-encoded in the
source) opaque file content. -/
structure StoredVotingFile where
  publicKey : String
  privateFileContent : VotingFileBytes
deriving DecidableEq, Repr

/-- The `KeyStorage` persisted document: three string-keyed maps. The `nodes`
map is keyed by the composite node key and holds a per-key-role inner map. -/
structure KeyStorage where
  network : List (String × StoredAccount)
  nodes : List (String × List (String × StoredAccount))
  votingFiles : List (String × StoredVotingFile)
deriving DecidableEq, Repr

/-- The `VotingKeyFileContent` returned by `getVotingKeyFile`: the decoded
voting key account data plus the raw file content. -/
structure VotingKeyFileContent where
  publicKey : String
  startEpoch : Nat
  endEpoch : Nat
  privateFileContent : VotingFileBytes
deriving DecidableEq, Repr

/-- The running state of a `LocalFileKeyStore`: the in-memory `storage`
document, the sequence of whole documents written to disk so far (`save()`
rewrites the full document on every call), and a counter supplying the fresh
randomness consumed by `Account.generateNewAccount`. -/
structure KeyStoreState where
  storage : KeyStorage
  savedDocs : List KeyStorage
  freshCounter : Nat
deriving DecidableEq, Repr

/-- A key store over an empty storage file. -/
def emptyKeyStoreState : KeyStoreState :=
  { storage := { network := [], nodes := [], votingFiles := [] }, savedDocs := [], freshCounter := 0 }

/-- `LocalFileKeyStore.save`: rewrites the whole storage document to disk. -/
def saveStore (s : KeyStoreState) : KeyStoreState :=
  { s with savedDocs := s.savedDocs ++ [s.storage] }

/-- `LocalFileKeyStore.toStored`. -/
def toStored (account : Account) : StoredAccount :=
  { privateKey := account.privateKey, publicKey := account.publicKey, address := account.address }

/-- `LocalFileKeyStore.generateNewAccount`: throws when generation is
disallowed, otherwise draws a fresh account (modelled by consuming the
freshness counter). -/
def generateNewAccount (generate : Bool) (networkType : Nat) (s : KeyStoreState) :
    Except String (Account × KeyStoreState) :=
  if !generate then Except.error "Account cannot be generated!!"
  else
    Except.ok
      (createFromPrivateKey ("gen-" ++ toString s.freshCounter) networkType,
        { s with freshCounter := s.freshCounter + 1 })

/-- `LocalFileKeyStore.getNetworkAccount`: takes the stored entry for the
account name, or else a freshly generated account; re-derives the account from
the private key, writes the entry back and saves the whole document. -/
def getNetworkAccount (networkType : Nat) (accountName : String) (generate : Bool)
    (s : KeyStoreState) : Except String (Account × KeyStoreState) :=
  match lookupA accountName s.storage.network with
  | some storedAccount =>
    let account := createFromPrivateKey storedAccount.privateKey networkType
    let s1 : KeyStoreState :=
      { s with storage := { s.storage with network := insertA accountName (toStored account) s.storage.network } }
    Except.ok (account, saveStore s1)
  | none =>
    match generateNewAccount generate networkType s with
    | Except.error e => Except.error e
    | Except.ok (generated, s0) =>
      let account := createFromPrivateKey (toStored generated).privateKey networkType
      let s1 : KeyStoreState :=
        { s0 with storage := { s0.storage with network := insertA accountName (toStored account) s0.storage.network } }
      Except.ok (account, saveStore s1)

/-- The composite node key used by `getNodeAccount`:
`nodeName + "-" + nodeInformation.number`. -/
def nodeStoreKey (nodeName : String) (nodeNumber : Nat) : String :=
  nodeName ++ "-" ++ toString nodeNumber

/-- `LocalFileKeyStore.getNodeAccount`: same get-or-generate semantics as
`getNetworkAccount`, scoped to the composite `(nodeName, nodeNumber)` key and
the key role. -/
def getNodeAccount (networkType : Nat) (keyName : String) (nodeName : String) (nodeNumber : Nat)
    (generate : Bool) (s : KeyStoreState) : Except String (Account × KeyStoreState) :=
  let nodeKey := nodeStoreKey nodeName nodeNumber
  let nodeMap := (lookupA nodeKey s.storage.nodes).getD []
  match lookupA keyName nodeMap with
  | some storedAccount =>
    let account := createFromPrivateKey storedAccount.privateKey networkType
    let s1 : KeyStoreState :=
      { s with storage :=
          { s.storage with nodes := insertA nodeKey (insertA keyName (toStored account) nodeMap) s.storage.nodes } }
    Except.ok (account, saveStore s1)
  | none =>
    match generateNewAccount generate networkType s with
    | Except.error e => Except.error e
    | Except.ok (generated, s0) =>
      let account := createFromPrivateKey (toStored generated).privateKey networkType
      let s1 : KeyStoreState :=
        { s0 with storage :=
            { s0.storage with nodes := insertA nodeKey (insertA keyName (toStored account) nodeMap) s0.storage.nodes } }
      Except.ok (account, saveStore s1)

/-- The composite voting-file key used by `getVotingKeyFile`:
`nodeName + "-" + number + "-" + startEpoch + "-" + endEpoch`. -/
def votingFileKey (nodeName : String) (nodeNumber startEpoch endEpoch : Nat) : String :=
  nodeName ++ "-" ++ toString nodeNumber ++ "-" ++ toString startEpoch ++ "-" ++ toString endEpoch

/-- `LocalFileKeyStore.getVotingKeyFile`: looks up the 4-tuple key; if found,
decodes the stored bytes and verifies the decoded epoch range against the
requested one; if absent, generates a voting account, creates a signed file
covering exactly the requested range, stores it and saves. -/
def getVotingKeyFile (networkType : Nat) (nodeName : String) (nodeNumber startEpoch endEpoch : Nat)
    (s : KeyStoreState) : Except String (VotingKeyFileContent × KeyStoreState) :=
  let nodeKey := votingFileKey nodeName nodeNumber startEpoch endEpoch
  match lookupA nodeKey s.storage.votingFiles with
  | some storedFile =>
    let privateFileContent := storedFile.privateFileContent
    let votingFile := readVotingFile privateFileContent
    if votingFile.startEpoch ≠ startEpoch then
      Except.error ("Unexpected startEpoch on stored file. Expected " ++ toString startEpoch
        ++ " but got " ++ toString votingFile.startEpoch)
    else if votingFile.endEpoch ≠ endEpoch then
      Except.error ("Unexpected endEpoch on stored file. Expected " ++ toString endEpoch
        ++ " but got " ++ toString votingFile.endEpoch)
    else
      Except.ok
        ({ publicKey := votingFile.publicKey, startEpoch := votingFile.startEpoch,
           endEpoch := votingFile.endEpoch, privateFileContent := privateFileContent }, s)
  | none =>
    match generateNewAccount true networkType s with
    | Except.error e => Except.error e
    | Except.ok (votingAccount, s0) =>
      let privateFileContent := createVotingFile votingAccount.privateKey startEpoch endEpoch
      let entry : StoredVotingFile :=
        { publicKey := votingAccount.publicKey, privateFileContent := privateFileContent }
      let s1 : KeyStoreState :=
        { s0 with storage :=
            { s0.storage with votingFiles := insertA nodeKey entry s0.storage.votingFiles } }
      Except.ok
        ({ publicKey := votingAccount.publicKey, startEpoch := startEpoch, endEpoch := endEpoch,
           privateFileContent := privateFileContent }, saveStore s1)

/-- First component of a successful key-store account call. -/
def resultAccount (r : Except String (Account × KeyStoreState)) : Option Account :=
  match r with
  | Except.ok (a, _) => some a
  | Except.error _ => none

/-- Second component of a successful key-store account call. -/
def resultState (r : Except String (Account × KeyStoreState)) : Option KeyStoreState :=
  match r with
  | Except.ok (_, s) => some s
  | Except.error _ => none

/-- First component of a successful voting-key-file call. -/
def votingResultFile (r : Except String (VotingKeyFileContent × KeyStoreState)) :
    Option VotingKeyFileContent :=
  match r with
  | Except.ok (f, _) => some f
  | Except.error _ => none

/-- Whether a voting-key-file call succeeded. -/
def votingResultOk (r : Except String (VotingKeyFileContent × KeyStoreState)) : Bool :=
  match r with
  | Except.ok _ => true
  | Except.error _ => false

theorem lookupA_insertA_self {α : Type} (k : String) (v : α) (l : List (String × α)) :
    lookupA k (insertA k v l) = some v := by
  induction l with
  | nil => simp [insertA, lookupA]
  | cons p rest ih =>
    obtain ⟨k', v'⟩ := p
    by_cases h : k' = k <;> simp [insertA, lookupA, h, ih]

theorem getNetworkAccount_ok_spec (networkType : Nat) (accountName : String) (generate : Bool)
    (s : KeyStoreState) (a : Account) (s' : KeyStoreState)
    (h : getNetworkAccount networkType accountName generate s = Except.ok (a, s')) :
    lookupA accountName s'.storage.network = some (toStored a)
      ∧ createFromPrivateKey a.privateKey networkType = a
      ∧ s'.savedDocs = s.savedDocs ++ [s'.storage] := by
  unfold getNetworkAccount at h
  cases hl : lookupA accountName s.storage.network with
  | some st =>
    rw [hl] at h
    simp only [Except.ok.injEq, Prod.mk.injEq] at h
    obtain ⟨ha, hs⟩ := h
    subst ha
    subst hs
    exact ⟨by simpa [saveStore] using lookupA_insertA_self accountName _ s.storage.network,
      rfl, rfl⟩
  | none =>
    rw [hl] at h
    unfold generateNewAccount at h
    cases hg : generate with
    | false => simp [hg] at h
    | true =>
      rw [hg] at h
      simp only [Bool.not_true, Bool.false_eq_true, if_false, Except.ok.injEq,
        Prod.mk.injEq] at h
      obtain ⟨ha, hs⟩ := h
      subst ha
      subst hs
      exact ⟨by simpa [saveStore] using lookupA_insertA_self accountName _ s.storage.network,
        rfl, rfl⟩

theorem getNodeAccount_ok_spec (networkType : Nat) (keyName nodeName : String)
    (nodeNumber : Nat) (generate : Bool) (s : KeyStoreState) (a : Account) (s' : KeyStoreState)
    (h : getNodeAccount networkType keyName nodeName nodeNumber generate s = Except.ok (a, s')) :
    lookupA keyName ((lookupA (nodeStoreKey nodeName nodeNumber) s'.storage.nodes).getD [])
        = some (toStored a)
      ∧ createFromPrivateKey a.privateKey networkType = a
      ∧ s'.savedDocs = s.savedDocs ++ [s'.storage] := by
  unfold getNodeAccount at h
  simp only [] at h
  cases hl : lookupA keyName ((lookupA (nodeStoreKey nodeName nodeNumber) s.storage.nodes).getD [])
    with
  | some st =>
    rw [hl] at h
    simp only [Except.ok.injEq, Prod.mk.injEq] at h
    obtain ⟨ha, hs⟩ := h
    subst ha
    subst hs
    refine ⟨?_, rfl, rfl⟩
    simp only [saveStore]
    rw [lookupA_insertA_self]
    simp only [Option.getD_some]
    exact lookupA_insertA_self keyName _ _
  | none =>
    rw [hl] at h
    unfold generateNewAccount at h
    cases hg : generate with
    | false => simp [hg] at h
    | true =>
      rw [hg] at h
      simp only [Bool.not_true, Bool.false_eq_true, if_false, Except.ok.injEq,
        Prod.mk.injEq] at h
      obtain ⟨ha, hs⟩ := h
      subst ha
      subst hs
      refine ⟨?_, rfl, rfl⟩
      simp only [saveStore]
      rw [lookupA_insertA_self]
      simp only [Option.getD_some]
      exact lookupA_insertA_self keyName _ _

/-- C3: the key-store get-or-generate operations are idempotent: after a
successful `getNetworkAccount` (or `getNodeAccount`) with generation enabled,
calling again with the same composite key returns the identical account, never
freshly generated material. -/
theorem keyStore_get_or_generate_idempotent (networkType : Nat)
    (accountName keyName nodeName : String) (nodeNumber : Nat)
    (s t s' t' : KeyStoreState) (a b : Account) :
    (getNetworkAccount networkType accountName true s = Except.ok (a, s') →
        resultAccount (getNetworkAccount networkType accountName true s') = some a)
  ∧ (getNodeAccount networkType keyName nodeName nodeNumber true t = Except.ok (b, t') →
        resultAccount (getNodeAccount networkType keyName nodeName nodeNumber true t') = some b) := by
  constructor
  · intro h
    obtain ⟨hlook, hidem, -⟩ := getNetworkAccount_ok_spec networkType accountName true s a s' h
    unfold getNetworkAccount
    rw [hlook]
    simpa [resultAccount, toStored] using hidem
  · intro h
    obtain ⟨hlook, hidem, -⟩ :=
      getNodeAccount_ok_spec networkType keyName nodeName nodeNumber true t b t' h
    unfold getNodeAccount
    simp only []
    rw [hlook]
    simpa [resultAccount, toStored] using hidem

/-- Concrete witness data: the first account generated from an empty store. -/
def wAccount : Account := createFromPrivateKey "gen-0" 152

/-- Storage after storing the first generated account under the founder role. -/
def wNetStorage : KeyStorage :=
  { network := [("founder", toStored wAccount)], nodes := [], votingFiles := [] }

/-- Key-store state after a first founder-role get-or-generate call. -/
def wNetState : KeyStoreState :=
  { storage := wNetStorage, savedDocs := [wNetStorage], freshCounter := 1 }

/-- Storage after storing the first generated account under a node main key. -/
def wNodeStorage : KeyStorage :=
  { network := [], nodes := [("node-1", [("main", toStored wAccount)])], votingFiles := [] }

/-- Key-store state after a first node-scoped get-or-generate call. -/
def wNodeState : KeyStoreState :=
  { storage := wNodeStorage, savedDocs := [wNodeStorage], freshCounter := 1 }

/-- Witness for C3 at a concrete run from the empty store. -/
theorem keyStore_get_or_generate_idempotent_witness :
    resultAccount (getNetworkAccount 152 "founder" true wNetState) = some wAccount
      ∧ resultAccount (getNodeAccount 152 "main" "node" 1 true wNodeState) = some wAccount := by
  constructor
  · exact (keyStore_get_or_generate_idempotent 152 "founder" "main" "node" 1
      emptyKeyStoreState emptyKeyStoreState wNetState wNodeState wAccount wAccount).1 rfl
  · exact (keyStore_get_or_generate_idempotent 152 "founder" "main" "node" 1
      emptyKeyStoreState emptyKeyStoreState wNetState wNodeState wAccount wAccount).2 rfl

/-- C5: `getNetworkAccount` returns the stored account for a role when one
exists; when none is stored it fails if generation is disallowed and otherwise
generates fresh material, stores it and returns it. -/
theorem getNetworkAccount_lookup_or_generate (networkType : Nat) (accountName : String)
    (s : KeyStoreState) :
    (∀ st, lookupA accountName s.storage.network = some st →
        resultAccount (getNetworkAccount networkType accountName false s)
          = some (createFromPrivateKey st.privateKey networkType))
  ∧ (lookupA accountName s.storage.network = none →
        getNetworkAccount networkType accountName false s
          = Except.error "Account cannot be generated!!")
  ∧ (lookupA accountName s.storage.network = none →
        resultAccount (getNetworkAccount networkType accountName true s)
          = some (createFromPrivateKey ("gen-" ++ toString s.freshCounter) networkType)
        ∧ (resultState (getNetworkAccount networkType accountName true s)).map
            (fun s' => lookupA accountName s'.storage.network)
          = some (some (toStored
              (createFromPrivateKey ("gen-" ++ toString s.freshCounter) networkType)))) := by
  refine ⟨?_, ?_, ?_⟩
  · intro st hl
    unfold getNetworkAccount
    rw [hl]
    simp [resultAccount]
  · intro hl
    unfold getNetworkAccount
    rw [hl]
    simp [generateNewAccount]
  · intro hl
    unfold getNetworkAccount
    rw [hl]
    simp only [generateNewAccount, Bool.not_true, Bool.false_eq_true, if_false]
    exact ⟨rfl, by simp [resultState, saveStore, lookupA_insertA_self, toStored, createFromPrivateKey]⟩

/-- Witness for C5 over a concrete store: stored lookup, missing without
generation, and missing with generation. -/
theorem getNetworkAccount_lookup_or_generate_witness :
    resultAccount (getNetworkAccount 152 "founder" false wNetState)
        = some (createFromPrivateKey "gen-0" 152)
      ∧ getNetworkAccount 152 "faucet" false wNetState
        = Except.error "Account cannot be generated!!"
      ∧ resultAccount (getNetworkAccount 152 "faucet" true wNetState)
        = some (createFromPrivateKey "gen-1" 152) := by
  refine ⟨?_, ?_, ?_⟩
  · exact (getNetworkAccount_lookup_or_generate 152 "founder" wNetState).1
      (toStored wAccount) (by decide)
  · exact (getNetworkAccount_lookup_or_generate 152 "faucet" wNetState).2.1 (by decide)
  · exact ((getNetworkAccount_lookup_or_generate 152 "faucet" wNetState).2.2 (by decide)).1

/-- C9: every successful `getNetworkAccount` or `getNodeAccount` call,
including a pure lookup that generates nothing, writes the re-derived entry
back into the in-memory map and rewrites the whole key-store document to disk:
no get operation on this store is effect-free. -/
theorem keyStore_get_writes_through (networkType : Nat) (accountName keyName nodeName : String)
    (nodeNumber : Nat) (g1 g2 : Bool) (s t s' t' : KeyStoreState) (a b : Account) :
    (getNetworkAccount networkType accountName g1 s = Except.ok (a, s') →
        lookupA accountName s'.storage.network = some (toStored a)
        ∧ s'.savedDocs = s.savedDocs ++ [s'.storage])
  ∧ (getNodeAccount networkType keyName nodeName nodeNumber g2 t = Except.ok (b, t') →
        lookupA keyName ((lookupA (nodeStoreKey nodeName nodeNumber) t'.storage.nodes).getD [])
          = some (toStored b)
        ∧ t'.savedDocs = t.savedDocs ++ [t'.storage]) := by
  constructor
  · intro h
    obtain ⟨hlook, -, hsave⟩ := getNetworkAccount_ok_spec networkType accountName g1 s a s' h
    exact ⟨hlook, hsave⟩
  · intro h
    obtain ⟨hlook, -, hsave⟩ :=
      getNodeAccount_ok_spec networkType keyName nodeName nodeNumber g2 t b t' h
    exact ⟨hlook, hsave⟩

/-- Witness for C9: a pure lookup on an already-populated store still rewrites
the store document to disk, for both the network-scoped and node-scoped get. -/
theorem keyStore_get_writes_through_witness :
    (lookupA "founder" (saveStore wNetState).storage.network = some (toStored wAccount)
      ∧ (saveStore wNetState).savedDocs = wNetState.savedDocs ++ [(saveStore wNetState).storage])
  ∧ (lookupA "main" ((lookupA (nodeStoreKey "node" 1) (saveStore wNodeState).storage.nodes).getD [])
        = some (toStored wAccount)
      ∧ (saveStore wNodeState).savedDocs
        = wNodeState.savedDocs ++ [(saveStore wNodeState).storage]) := by
  constructor
  · exact (keyStore_get_writes_through 152 "founder" "main" "node" 1 false false
      wNetState wNodeState (saveStore wNetState) (saveStore wNodeState) wAccount wAccount).1
      rfl
  · exact (keyStore_get_writes_through 152 "founder" "main" "node" 1 false false
      wNetState wNodeState (saveStore wNetState) (saveStore wNodeState) wAccount wAccount).2
      rfl

theorem getVotingKeyFile_ok_spec (networkType : Nat) (nodeName : String)
    (nodeNumber startEpoch endEpoch : Nat) (s : KeyStoreState) (out : VotingKeyFileContent)
    (s' : KeyStoreState)
    (h : getVotingKeyFile networkType nodeName nodeNumber startEpoch endEpoch s
      = Except.ok (out, s')) :
    (lookupA (votingFileKey nodeName nodeNumber startEpoch endEpoch) s'.storage.votingFiles).map
        (fun e => e.privateFileContent) = some out.privateFileContent
      ∧ readVotingFile out.privateFileContent
        = { publicKey := out.publicKey, startEpoch := startEpoch, endEpoch := endEpoch } := by
  unfold getVotingKeyFile at h
  simp only [readVotingFile] at h
  cases hl : lookupA (votingFileKey nodeName nodeNumber startEpoch endEpoch)
      s.storage.votingFiles with
  | some storedFile =>
    rw [hl] at h
    by_cases h1 : storedFile.privateFileContent.startEpoch = startEpoch
    · by_cases h2 : storedFile.privateFileContent.endEpoch = endEpoch
      · simp only [h1, h2, ne_eq, not_true_eq_false, if_false, Except.ok.injEq,
          Prod.mk.injEq] at h
        obtain ⟨ho, hs⟩ := h
        subst hs
        rw [hl]
        constructor
        · simp [← ho]
        · rw [← ho]
          simp only [readVotingFile]
          rw [← h1, ← h2]
      · simp [h1, h2] at h
    · simp [h1] at h
  | none =>
    rw [hl] at h
    simp only [generateNewAccount, Bool.not_true, Bool.false_eq_true, if_false,
      Except.ok.injEq, Prod.mk.injEq] at h
    obtain ⟨ho, hs⟩ := h
    subst hs
    constructor
    · rw [← ho]
      simp [saveStore, lookupA_insertA_self]
    · rw [← ho]
      simp [readVotingFile, createVotingFile, createFromPrivateKey]

/-- C2 (amended): for every epoch pair with start less-or-equal end, a second
`getVotingKeyFile` call with the same range returns a file whose decoded range
equals the requested one; a call with a different range addresses a different
composite key (the range is part of the key), so when nothing is stored there
it generates and returns a file covering exactly the new range instead of
failing; the epoch-mismatch error is raised exactly when the bytes stored
under the requested key decode to a different range. -/
theorem getVotingKeyFile_epoch_range (networkType : Nat) (nodeName : String)
    (nodeNumber se ee se2 ee2 : Nat) (s s' : KeyStoreState) (out : VotingKeyFileContent)
    (hse : se ≤ ee)
    (h : getVotingKeyFile networkType nodeName nodeNumber se ee s = Except.ok (out, s')) :
    ((votingResultFile (getVotingKeyFile networkType nodeName nodeNumber se ee s')).map
        (fun f => ((readVotingFile f.privateFileContent).startEpoch,
          (readVotingFile f.privateFileContent).endEpoch)) = some (se, ee))
  ∧ (lookupA (votingFileKey nodeName nodeNumber se2 ee2) s'.storage.votingFiles = none →
      (votingResultFile (getVotingKeyFile networkType nodeName nodeNumber se2 ee2 s')).map
        (fun f => (f.startEpoch, f.endEpoch)) = some (se2, ee2))
  ∧ (∀ (t : KeyStoreState) (entry : StoredVotingFile),
      lookupA (votingFileKey nodeName nodeNumber se ee) t.storage.votingFiles = some entry →
      ((readVotingFile entry.privateFileContent).startEpoch ≠ se
        ∨ (readVotingFile entry.privateFileContent).endEpoch ≠ ee) →
      votingResultOk (getVotingKeyFile networkType nodeName nodeNumber se ee t) = false) := by
  obtain ⟨hmap, hdec⟩ :=
    getVotingKeyFile_ok_spec networkType nodeName nodeNumber se ee s out s' h
  refine ⟨?_, ?_, ?_⟩
  · cases he : lookupA (votingFileKey nodeName nodeNumber se ee) s'.storage.votingFiles with
    | none => rw [he] at hmap; simp at hmap
    | some entry =>
      rw [he] at hmap
      simp at hmap
      unfold getVotingKeyFile
      simp only []
      rw [he]
      simp only [readVotingFile] at hdec ⊢
      rw [hmap, hdec]
      simp [votingResultFile]
  · intro hl
    unfold getVotingKeyFile
    simp only []
    rw [hl]
    simp [generateNewAccount, votingResultFile]
  · intro t entry he hmis
    unfold getVotingKeyFile
    simp only []
    rw [he]
    simp only [readVotingFile] at hmis ⊢
    rcases hmis with hmis | hmis
    · simp [hmis, votingResultOk]
    · by_cases h1 : entry.privateFileContent.startEpoch = se
      · simp [h1, hmis, votingResultOk]
      · simp [h1, votingResultOk]

/-- The stored voting file produced by a first call covering epochs 1 to 10. -/
def c2Entry : StoredVotingFile :=
  { publicKey := pubOfPriv "gen-0", privateFileContent := createVotingFile "gen-0" 1 10 }

/-- Storage of a key store holding exactly that voting file. -/
def c2Storage : KeyStorage :=
  { network := [], nodes := [], votingFiles := [(votingFileKey "node" 1 1 10, c2Entry)] }

/-- Key-store state after a first getVotingKeyFile call for epochs 1 to 10. -/
def c2FirstState : KeyStoreState :=
  { storage := c2Storage, savedDocs := [c2Storage], freshCounter := 1 }

/-- The voting key file content returned by that first call. -/
def c2File : VotingKeyFileContent :=
  { publicKey := pubOfPriv "gen-0", startEpoch := 1, endEpoch := 10,
    privateFileContent := createVotingFile "gen-0" 1 10 }

/-- A key store whose stored bytes under the (1,10) key decode to the foreign
range (5,10), exercising the epoch verification. -/
def c2BadStorage : KeyStorage :=
  { network := [], nodes := [],
    votingFiles := [(votingFileKey "node" 1 1 10,
      { publicKey := pubOfPriv "gen-0", privateFileContent := createVotingFile "gen-0" 5 10 })] }

/-- Key-store state over that mismatching storage. -/
def c2BadState : KeyStoreState :=
  { storage := c2BadStorage, savedDocs := [], freshCounter := 1 }

/-- C2 counterexample: after a voting key file for epochs (1,10) is stored for
node number 1, a call with the different range (2,10) against the same node
does not fail with the epoch-mismatch error: it succeeds and returns a fresh
file covering (2,10), because the epoch range is part of the storage key. -/
theorem getVotingKeyFile_different_range_not_rejected :
    lookupA (votingFileKey "node" 1 1 10) c2FirstState.storage.votingFiles = some c2Entry
      ∧ votingResultOk (getVotingKeyFile 152 "node" 1 2 10 c2FirstState) = true
      ∧ (votingResultFile (getVotingKeyFile 152 "node" 1 2 10 c2FirstState)).map
          (fun f => (f.startEpoch, f.endEpoch)) = some (2, 10) := by
  refine ⟨by decide, by decide, by decide⟩

/-- Witness for the amended C2 at concrete inputs. -/
theorem getVotingKeyFile_epoch_range_witness :
    ((votingResultFile (getVotingKeyFile 152 "node" 1 1 10 c2FirstState)).map
        (fun f => ((readVotingFile f.privateFileContent).startEpoch,
          (readVotingFile f.privateFileContent).endEpoch)) = some (1, 10))
  ∧ ((votingResultFile (getVotingKeyFile 152 "node" 1 2 10 c2FirstState)).map
        (fun f => (f.startEpoch, f.endEpoch)) = some (2, 10))
  ∧ votingResultOk (getVotingKeyFile 152 "node" 1 1 10 c2BadState) = false := by
  refine ⟨?_, ?_, ?_⟩
  · exact (getVotingKeyFile_epoch_range 152 "node" 1 1 10 2 10 emptyKeyStoreState c2FirstState
      c2File (by decide) rfl).1
  · exact (getVotingKeyFile_epoch_range 152 "node" 1 1 10 2 10 emptyKeyStoreState c2FirstState
      c2File (by decide) rfl).2.1 (by decide)
  · exact (getVotingKeyFile_epoch_range 152 "node" 1 1 10 2 10 emptyKeyStoreState c2FirstState
      c2File (by decide) rfl).2.2 c2BadState
      { publicKey := pubOfPriv "gen-0", privateFileContent := createVotingFile "gen-0" 5 10 }
      (by decide) (Or.inl (by decide))

/- ----------------------------------------------------------------
   src/services/NetworkUtils.ts and expandNodes
   (src/services/NetworkConfigurationService.ts)
   ---------------------------------------------------------------- -/

/-- `NetworkUtils.zeroPad`: `String(num).padStart(places, "0")`. -/
def zeroPad (num : Nat) (places : Nat) : String :=
  let s := toString num
  String.mk (List.replicate (places - s.length) '0') ++ s

/-- Whether the first list is an initial segment of the second (the
character-level matching step of JS `String.replace` with a string pattern). -/
def leadsWith : List Char → List Char → Bool
  | [], _ => true
  | _ :: _, [] => false
  | a :: as, b :: bs => if a = b then leadsWith as bs else false

/-- JS `String.replace` with a string pattern and a replacement free of the
special `$`-sequences: replaces only the first occurrence of the pattern and
returns the string unchanged when the pattern does not occur. -/
def replaceFirstAux (pat val : List Char) : List Char → List Char
  | [] => []
  | c :: rest =>
    if leadsWith pat (c :: rest) then val ++ (c :: rest).drop pat.length
    else c :: replaceFirstAux pat val rest

/-- String-level wrapper for `replaceFirstAux`. -/
def replaceFirst (s pat val : String) : String :=
  String.mk (replaceFirstAux pat.data val.data s.data)

/-- The friendlyName formatting of `expandNodes`:
`Object.entries({suffix, nickname, friendlyNumber}).reduce((pattern, [key,
value]) => pattern.replace("$" + key, value), friendlyNamePattern)` — the
entries are folded in insertion order. -/
def formatFriendlyName (pattern suffix nickname friendlyNumber : String) : String :=
  replaceFirst (replaceFirst (replaceFirst pattern "$suffix" suffix) "$nickname" nickname)
    "$friendlyNumber" friendlyNumber

/-- The `NodeTypeInput` interface from src/model/NetworkFile.ts. -/
structure NodeTypeInput where
  nickName : String
  nodeType : NodeMetadataType
  total : Nat
  balances : List Nat
  restProtocol : Option RestProtocol
deriving DecidableEq, Repr

/-- The `NodeInformation` record built by `expandNodes` (the per-node
configuration-override object is elided: no claim concerns it). -/
structure NodeInformation where
  number : Nat
  nickName : String
  friendlyName : String
  assembly : String
  hostname : String
  nodeType : NodeMetadataType
  restProtocol : Option RestProtocol
  balances : List Nat
deriving DecidableEq, Repr

/-- The fields of `NetworkInputFile` consumed by the modelled operations. -/
structure NetworkInputFile where
  preset : String
  networkType : Nat
  isNewNetwork : Bool
  nemesisSeedFolder : Option String
  faucetBalances : Option (List Nat)
  domain : String
  suffix : String
  friendlyNamePattern : String
  nodeTypes : List NodeTypeInput
deriving DecidableEq, Repr

/-- The expanded `NetworkFile` (carried-over network fields plus nodes). -/
structure NetworkFile where
  preset : String
  networkType : Nat
  isNewNetwork : Bool
  nemesisSeedFolder : Option String
  faucetBalances : Option (List Nat)
  domain : String
  suffix : String
  friendlyNamePattern : String
  nodes : List NodeInformation
deriving DecidableEq, Repr

/-- One iteration of the inner loop of `expandNodes` (regionIndex is 0 in the
non-fleet variant): formats the friendly name from the template (an empty
template string is falsy in TS and falls back to the default), derives the
hostname and the assembly. -/
def buildNode (input : NetworkInputFile) (g : NodeTypeInput) (nickNameNumber nodeNumber : Nat) :
    NodeInformation :=
  let nickname := g.nickName
  let regionIndex : Nat := 0
  let friendlyNamePattern :=
    if input.friendlyNamePattern = "" then "$suffix-$nickname-$friendlyNumber"
    else input.friendlyNamePattern
  let friendlyNumber := toString regionIndex ++ zeroPad nickNameNumber 2
  let friendlyName := formatFriendlyName friendlyNamePattern input.suffix nickname friendlyNumber
  let hostname := friendlyName ++ "." ++ input.domain
  let metadata := nodesMetadata g.nodeType
  { number := nodeNumber, nickName := g.nickName, friendlyName := friendlyName,
    assembly := getAssembly metadata, hostname := hostname, nodeType := g.nodeType,
    restProtocol := g.restProtocol, balances := g.balances }

/-- The inner `for (let index = 0; index < total; index++)` loop of
`expandNodes`: threads the per-(nickname,region) counters and the global node
counter. -/
def buildGroup (input : NetworkInputFile) (g : NodeTypeInput) :
    Nat → List (String × Nat) → Nat → List NodeInformation × List (String × Nat) × Nat
  | 0, counters, nodeCounter => ([], counters, nodeCounter)
  | Nat.succ k, counters, nodeCounter =>
    let counterIndex := g.nickName ++ toString (0 : Nat)
    let nickNameNumber := (lookupA counterIndex counters).getD 0 + 1
    let counters1 := insertA counterIndex nickNameNumber counters
    let node := buildNode input g nickNameNumber (nodeCounter + 1)
    let rest := buildGroup input g k counters1 (nodeCounter + 1)
    (node :: rest.1, rest.2)

/-- The outer loop of `expandNodes` over the declared node-type groups. -/
def buildNodesAux (input : NetworkInputFile) :
    List NodeTypeInput → List (String × Nat) → Nat → List NodeInformation
  | [], _, _ => []
  | g :: rest, counters, nodeCounter =>
    let r := buildGroup input g g.total counters nodeCounter
    r.1 ++ buildNodesAux input rest r.2.1 r.2.2

/-- The full node list built by `expandNodes` before the uniqueness checks. -/
def buildNodes (input : NetworkInputFile) : List NodeInformation :=
  buildNodesAux input input.nodeTypes [] 0

/-- lodash `uniqBy` (first occurrence per key is kept), with the accumulator
of already-seen keys made explicit. -/
def uniqByAux {α β : Type} [DecidableEq β] (key : α → β) (seen : List β) : List α → List α
  | [] => []
  | x :: xs =>
    if key x ∈ seen then uniqByAux key seen xs
    else x :: uniqByAux key (key x :: seen) xs

/-- lodash `uniqBy`. -/
def uniqBy {α β : Type} [DecidableEq β] (key : α → β) (l : List α) : List α :=
  uniqByAux key [] l

/-- The persisted topology file (`NetworkUtils.saveNetwork` target). -/
structure NetworkFileStore where
  networkFile : Option NetworkFile
deriving DecidableEq, Repr

/-- The `NetworkFile` assembled by a successful `expandNodes`. -/
def expandedFile (input : NetworkInputFile) : NetworkFile :=
  { preset := input.preset, networkType := input.networkType,
    isNewNetwork := input.isNewNetwork, nemesisSeedFolder := input.nemesisSeedFolder,
    faucetBalances := input.faucetBalances, domain := input.domain, suffix := input.suffix,
    friendlyNamePattern := input.friendlyNamePattern, nodes := buildNodes input }

/-- `NetworkConfigurationService.expandNodes`: builds all nodes, throws on a
duplicated friendlyName or hostname (both detected by comparing the list
length against the lodash `uniqBy` length over the whole list) and only then
persists the expanded network file. The second component is the state of the
persisted file. -/
def expandNodes (input : NetworkInputFile) (fs : NetworkFileStore) :
    Except String NetworkFile × NetworkFileStore :=
  let nodes := buildNodes input
  if nodes.length ≠ (uniqBy (fun n => n.friendlyName) nodes).length then
    (Except.error "Duplicated friendlyNames!!", fs)
  else if nodes.length ≠ (uniqBy (fun n => n.hostname) nodes).length then
    (Except.error "Duplicated hostname!!", fs)
  else
    (Except.ok (expandedFile input), { networkFile := some (expandedFile input) })

theorem uniqByAux_length_le {α β : Type} [DecidableEq β] (key : α → β) (seen : List β)
    (l : List α) : (uniqByAux key seen l).length ≤ l.length := by
  induction l generalizing seen with
  | nil => simp [uniqByAux]
  | cons x xs ih =>
    by_cases h : key x ∈ seen
    · simp only [uniqByAux, if_pos h]
      exact le_trans (ih seen) (Nat.le_succ _)
    · simp only [uniqByAux, if_neg h, List.length_cons]
      exact Nat.succ_le_succ (ih _)

theorem uniqByAux_length_eq_iff {α β : Type} [DecidableEq β] (key : α → β) (seen : List β)
    (l : List α) :
    (uniqByAux key seen l).length = l.length
      ↔ (l.map key).Nodup ∧ ∀ b ∈ l.map key, b ∉ seen := by
  induction l generalizing seen with
  | nil => simp [uniqByAux]
  | cons x xs ih =>
    by_cases h : key x ∈ seen
    · simp only [uniqByAux, if_pos h, List.length_cons]
      constructor
      · intro hlen
        exfalso
        have := uniqByAux_length_le key seen xs
        omega
      · rintro ⟨-, hb⟩
        exact absurd h (hb (key x) (by simp))
    · simp only [uniqByAux, if_neg h, List.length_cons, List.map_cons, List.nodup_cons,
        add_left_inj]
      rw [ih]
      constructor
      · rintro ⟨hnod, hall⟩
        have hx : key x ∉ xs.map key := fun hmem => (hall _ hmem) (List.mem_cons_self _ _)
        refine ⟨⟨hx, hnod⟩, ?_⟩
        intro b hb
        rcases List.mem_cons.mp hb with hb | hb
        · subst hb; exact h
        · exact fun hbs => (hall _ hb) (List.mem_cons_of_mem _ hbs)
      · rintro ⟨⟨hx, hnod⟩, hall⟩
        refine ⟨hnod, ?_⟩
        intro b hb hmem
        rcases List.mem_cons.mp hmem with hmem | hmem
        · subst hmem; exact hx hb
        · exact (hall b (List.mem_cons_of_mem _ hb)) hmem

theorem uniqBy_length_eq_iff {α β : Type} [DecidableEq β] (key : α → β) (l : List α) :
    ((uniqBy key l).length = l.length) ↔ (l.map key).Nodup := by
  unfold uniqBy
  rw [uniqByAux_length_eq_iff]
  simp

theorem uniqBy_length_ne_iff {α β : Type} [DecidableEq β] (key : α → β) (l : List α) :
    (l.length ≠ (uniqBy key l).length) ↔ ¬ (l.map key).Nodup := by
  rw [ne_comm, Ne, uniqBy_length_eq_iff]

/-- C4: when the expansion produces two nodes sharing a friendlyName or two
nodes sharing a hostname, `expandNodes` fails with a duplicate-identifier
error and leaves the persisted network file untouched (the uniqueness check
over the whole list runs before any write); when all names are distinct the
operation succeeds and persists the expanded file. -/
theorem expandNodes_unique_or_fail (input : NetworkInputFile) (fs : NetworkFileStore) :
    ((¬ ((buildNodes input).map (fun n => n.friendlyName)).Nodup
        ∨ ¬ ((buildNodes input).map (fun n => n.hostname)).Nodup) →
      (expandNodes input fs).2 = fs
        ∧ ((expandNodes input fs).1 = Except.error "Duplicated friendlyNames!!"
            ∨ (expandNodes input fs).1 = Except.error "Duplicated hostname!!"))
  ∧ (((buildNodes input).map (fun n => n.friendlyName)).Nodup →
      ((buildNodes input).map (fun n => n.hostname)).Nodup →
      expandNodes input fs
        = (Except.ok (expandedFile input), { networkFile := some (expandedFile input) })) := by
  constructor
  · intro hdup
    rcases hdup with hdup | hdup
    · have hc : (buildNodes input).length ≠ (uniqBy (fun n => n.friendlyName) (buildNodes input)).length :=
        (uniqBy_length_ne_iff _ _).mpr hdup
      simp [expandNodes, hc]
    · by_cases hfn : ((buildNodes input).map (fun n => n.friendlyName)).Nodup
      · have hc1 : ¬ (buildNodes input).length ≠ (uniqBy (fun n => n.friendlyName) (buildNodes input)).length := by
          simp only [uniqBy_length_ne_iff]
          simpa using hfn
        have hc2 : (buildNodes input).length ≠ (uniqBy (fun n => n.hostname) (buildNodes input)).length :=
          (uniqBy_length_ne_iff _ _).mpr hdup
        simp [expandNodes, hc1, hc2]
      · have hc : (buildNodes input).length ≠ (uniqBy (fun n => n.friendlyName) (buildNodes input)).length :=
          (uniqBy_length_ne_iff _ _).mpr hfn
        simp [expandNodes, hc]
  · intro hfn hhn
    have hc1 : ¬ (buildNodes input).length ≠ (uniqBy (fun n => n.friendlyName) (buildNodes input)).length := by
      simp only [uniqBy_length_ne_iff]
      simpa using hfn
    have hc2 : ¬ (buildNodes input).length ≠ (uniqBy (fun n => n.hostname) (buildNodes input)).length := by
      simp only [uniqBy_length_ne_iff]
      simpa using hhn
    simp [expandNodes, hc1, hc2]

/-- A node-type group of two voting dual nodes. -/
def c4Group : NodeTypeInput :=
  { nickName := "dual", nodeType := NodeMetadataType.VotingDual, total := 2,
    balances := [3000000, 150], restProtocol := none }

/-- A network input whose template drops the per-node number, so two nodes of
the same group collide on friendlyName. -/
def c4DupInput : NetworkInputFile :=
  { preset := "custom-network-preset.yml", networkType := 152, isNewNetwork := true,
    nemesisSeedFolder := none, faucetBalances := none, domain := "mynetwork.com",
    suffix := "myn", friendlyNamePattern := "$suffix-$nickname",
    nodeTypes := [c4Group] }

/-- The same input with the default (numbered) template: all names distinct. -/
def c4OkInput : NetworkInputFile :=
  { preset := "custom-network-preset.yml", networkType := 152, isNewNetwork := true,
    nemesisSeedFolder := none, faucetBalances := none, domain := "mynetwork.com",
    suffix := "myn", friendlyNamePattern := "",
    nodeTypes := [c4Group] }

/-- An empty persisted-topology state. -/
def c4EmptyStore : NetworkFileStore := { networkFile := none }

/-- Witness for C4: the colliding input fails without writing, the distinct
input succeeds and persists. -/
theorem expandNodes_unique_or_fail_witness :
    ((expandNodes c4DupInput c4EmptyStore).2 = c4EmptyStore
      ∧ ((expandNodes c4DupInput c4EmptyStore).1 = Except.error "Duplicated friendlyNames!!"
          ∨ (expandNodes c4DupInput c4EmptyStore).1 = Except.error "Duplicated hostname!!"))
  ∧ expandNodes c4OkInput c4EmptyStore
      = (Except.ok (expandedFile c4OkInput), { networkFile := some (expandedFile c4OkInput) }) := by
  constructor
  · exact (expandNodes_unique_or_fail c4DupInput c4EmptyStore).1
      (Or.inl ((uniqBy_length_ne_iff _ _).mp (by decide)))
  · exact (expandNodes_unique_or_fail c4OkInput c4EmptyStore).2
      ((uniqBy_length_eq_iff _ _).mp (by decide)) ((uniqBy_length_eq_iff _ _).mp (by decide))

theorem replaceFirstAux_cons (pat val : List Char) (c : Char) (rest : List Char) :
    replaceFirstAux pat val (c :: rest)
      = if leadsWith pat (c :: rest) then val ++ (c :: rest).drop pat.length
        else c :: replaceFirstAux pat val rest := rfl

theorem leadsWith_cons (a : Char) (as : List Char) (b : Char) (bs : List Char) :
    leadsWith (a :: as) (b :: bs) = if a = b then leadsWith as bs else false := rfl

theorem replaceFirstAux_no_dollar (p val s : List Char) (hs : '$' ∉ s) :
    replaceFirstAux ('$' :: p) val s = s := by
  induction s with
  | nil => rfl
  | cons c rest ih =>
    have hc : ¬ ('$' = c) := fun h => hs (by simp [← h])
    have hs' : '$' ∉ rest := fun h => hs (List.mem_cons_of_mem _ h)
    rw [replaceFirstAux_cons, leadsWith_cons, if_neg hc]
    simp only [Bool.false_eq_true, if_false]
    rw [ih hs']

theorem replaceFirstAux_skip (p val t rest : List Char) (ht : '$' ∉ t) :
    replaceFirstAux ('$' :: p) val (t ++ rest) = t ++ replaceFirstAux ('$' :: p) val rest := by
  induction t with
  | nil => simp
  | cons c t' ih =>
    have hc : ¬ ('$' = c) := fun h => ht (by simp [← h])
    have ht' : '$' ∉ t' := fun h => ht (List.mem_cons_of_mem _ h)
    rw [List.cons_append, replaceFirstAux_cons, leadsWith_cons, if_neg hc]
    simp only [Bool.false_eq_true, if_false]
    rw [ih ht', List.cons_append]

theorem leadsWith_append (pat rest : List Char) : leadsWith pat (pat ++ rest) = true := by
  induction pat with
  | nil => rfl
  | cons a as ih => simp [leadsWith_cons, ih]

theorem replaceFirstAux_match (c : Char) (p val rest : List Char) :
    replaceFirstAux (c :: p) val ((c :: p) ++ rest) = val ++ rest := by
  have hlw : leadsWith (c :: p) (c :: (p ++ rest)) = true := by
    simpa using leadsWith_append (c :: p) rest
  rw [List.cons_append, replaceFirstAux_cons, hlw]
  simp only [if_true]
  congr 1
  rw [List.length_cons, List.drop_succ_cons]
  exact List.drop_left p rest

theorem replaceFirstAux_skip_site (c : Char) (p : List Char) (d : Char) (u rest val : List Char)
    (hcd : ¬ (c = d)) (hdu : '$' ∉ d :: u) :
    replaceFirstAux ('$' :: c :: p) val ('$' :: d :: (u ++ rest))
      = '$' :: (d :: (u ++ replaceFirstAux ('$' :: c :: p) val rest)) := by
  have hlw : leadsWith ('$' :: c :: p) ('$' :: d :: (u ++ rest)) = false := by
    rw [leadsWith_cons, if_pos rfl, leadsWith_cons, if_neg hcd]
  rw [replaceFirstAux_cons, hlw]
  simp only [Bool.false_eq_true, if_false]
  congr 1
  have h := replaceFirstAux_skip (c :: p) val (d :: u) rest hdu
  rw [List.cons_append] at h
  rw [h, List.cons_append]

theorem rfa_two_sites (c : Char) (p : List Char) (d : Char) (u : List Char)
    (t1 t2 t3 val : List Char) (hcd : ¬ (c = d)) (hdu : '$' ∉ d :: u)
    (h1 : '$' ∉ t1) (h2 : '$' ∉ t2) (h3 : '$' ∉ t3) :
    replaceFirstAux ('$' :: c :: p) val
        (t1 ++ (('$' :: d :: u) ++ (t2 ++ (('$' :: d :: u) ++ t3))))
      = t1 ++ (('$' :: d :: u) ++ (t2 ++ (('$' :: d :: u) ++ t3))) := by
  rw [replaceFirstAux_skip (c :: p) val t1 _ h1]
  rw [show ('$' :: d :: u) ++ (t2 ++ (('$' :: d :: u) ++ t3))
      = '$' :: d :: (u ++ (t2 ++ (('$' :: d :: u) ++ t3))) from by simp]
  rw [replaceFirstAux_skip_site c p d u _ val hcd hdu]
  rw [replaceFirstAux_skip (c :: p) val t2 _ h2]
  rw [show ('$' :: d :: u) ++ t3 = '$' :: d :: (u ++ t3) from by simp]
  rw [replaceFirstAux_skip_site c p d u t3 val hcd hdu]
  rw [replaceFirstAux_no_dollar _ _ _ h3]

theorem rfa_first_of_two (d : Char) (u : List Char) (t1 t2 t3 val : List Char)
    (h1 : '$' ∉ t1) :
    replaceFirstAux ('$' :: d :: u) val
        (t1 ++ (('$' :: d :: u) ++ (t2 ++ (('$' :: d :: u) ++ t3))))
      = t1 ++ (val ++ (t2 ++ (('$' :: d :: u) ++ t3))) := by
  rw [replaceFirstAux_skip (d :: u) val t1 _ h1]
  rw [replaceFirstAux_match '$' (d :: u) val (t2 ++ (('$' :: d :: u) ++ t3))]

theorem rfa_one_site (c : Char) (p : List Char) (d : Char) (u : List Char)
    (w1 w2 val : List Char) (hcd : ¬ (c = d)) (hdu : '$' ∉ d :: u)
    (h1 : '$' ∉ w1) (h2 : '$' ∉ w2) :
    replaceFirstAux ('$' :: c :: p) val (w1 ++ (('$' :: d :: u) ++ w2))
      = w1 ++ (('$' :: d :: u) ++ w2) := by
  rw [replaceFirstAux_skip (c :: p) val w1 _ h1]
  rw [show ('$' :: d :: u) ++ w2 = '$' :: d :: (u ++ w2) from by simp]
  rw [replaceFirstAux_skip_site c p d u w2 val hcd hdu]
  rw [replaceFirstAux_no_dollar _ _ _ h2]

theorem sdata_append (a b : String) : (a ++ b).data = a.data ++ b.data := by
  cases a
  cases b
  rfl

theorem strEq_of_data (a b : String) (h : a.data = b.data) : a = b := by
  cases a
  cases b
  exact congrArg String.mk h

/-- C10: in the friendlyName formatting of `expandNodes`, each template
variable is substituted only at its first occurrence: when a variable occurs
twice in the template (with the surrounding template text and the substituted
values free of the dollar character), every occurrence after the first is left
as the literal variable text in the resulting friendlyName. -/
theorem formatFriendlyName_first_occurrence_only (t1 t2 t3 sfx nick fnum : String)
    (h1 : '$' ∉ t1.data) (h2 : '$' ∉ t2.data) (h3 : '$' ∉ t3.data)
    (hs : '$' ∉ sfx.data) (hn : '$' ∉ nick.data) (hf : '$' ∉ fnum.data) :
    formatFriendlyName (t1 ++ ("$suffix" ++ (t2 ++ ("$suffix" ++ t3)))) sfx nick fnum
        = t1 ++ (sfx ++ (t2 ++ ("$suffix" ++ t3)))
  ∧ formatFriendlyName (t1 ++ ("$nickname" ++ (t2 ++ ("$nickname" ++ t3)))) sfx nick fnum
        = t1 ++ (nick ++ (t2 ++ ("$nickname" ++ t3)))
  ∧ formatFriendlyName (t1 ++ ("$friendlyNumber" ++ (t2 ++ ("$friendlyNumber" ++ t3)))) sfx nick
        fnum
        = t1 ++ (fnum ++ (t2 ++ ("$friendlyNumber" ++ t3))) := by
  refine ⟨?_, ?_, ?_⟩
  · apply strEq_of_data
    show replaceFirstAux ("$friendlyNumber".data) fnum.data
        (replaceFirstAux ("$nickname".data) nick.data
          (replaceFirstAux ("$suffix".data) sfx.data
            ((t1 ++ ("$suffix" ++ (t2 ++ ("$suffix" ++ t3)))).data)))
      = (t1 ++ (sfx ++ (t2 ++ ("$suffix" ++ t3)))).data
    simp only [sdata_append]
    rw [rfa_first_of_two 's' ['u', 'f', 'f', 'i', 'x'] t1.data t2.data t3.data sfx.data h1]
    rw [replaceFirstAux_skip ('n' :: ['i', 'c', 'k', 'n', 'a', 'm', 'e']) nick.data t1.data _ h1]
    rw [replaceFirstAux_skip ('n' :: ['i', 'c', 'k', 'n', 'a', 'm', 'e']) nick.data sfx.data _ hs]
    rw [replaceFirstAux_skip ('n' :: ['i', 'c', 'k', 'n', 'a', 'm', 'e']) nick.data t2.data _ h2]
    rw [show ('$' :: 's' :: ['u', 'f', 'f', 'i', 'x']) ++ t3.data
      = '$' :: 's' :: (['u', 'f', 'f', 'i', 'x'] ++ t3.data) from by simp]
    rw [replaceFirstAux_skip_site 'n' ['i', 'c', 'k', 'n', 'a', 'm', 'e'] 's'
      ['u', 'f', 'f', 'i', 'x'] t3.data nick.data (by decide) (by decide)]
    rw [replaceFirstAux_no_dollar _ _ _ h3]
    rw [replaceFirstAux_skip ('f' :: ['r', 'i', 'e', 'n', 'd', 'l', 'y', 'N', 'u', 'm', 'b', 'e', 'r'])
      fnum.data t1.data _ h1]
    rw [replaceFirstAux_skip ('f' :: ['r', 'i', 'e', 'n', 'd', 'l', 'y', 'N', 'u', 'm', 'b', 'e', 'r'])
      fnum.data sfx.data _ hs]
    rw [replaceFirstAux_skip ('f' :: ['r', 'i', 'e', 'n', 'd', 'l', 'y', 'N', 'u', 'm', 'b', 'e', 'r'])
      fnum.data t2.data _ h2]
    rw [replaceFirstAux_skip_site 'f' ['r', 'i', 'e', 'n', 'd', 'l', 'y', 'N', 'u', 'm', 'b', 'e', 'r']
      's' ['u', 'f', 'f', 'i', 'x'] t3.data fnum.data (by decide) (by decide)]
    rw [replaceFirstAux_no_dollar _ _ _ h3]
  · apply strEq_of_data
    show replaceFirstAux ("$friendlyNumber".data) fnum.data
        (replaceFirstAux ("$nickname".data) nick.data
          (replaceFirstAux ("$suffix".data) sfx.data
            ((t1 ++ ("$nickname" ++ (t2 ++ ("$nickname" ++ t3)))).data)))
      = (t1 ++ (nick ++ (t2 ++ ("$nickname" ++ t3)))).data
    simp only [sdata_append]
    rw [rfa_two_sites 's' ['u', 'f', 'f', 'i', 'x'] 'n' ['i', 'c', 'k', 'n', 'a', 'm', 'e']
      t1.data t2.data t3.data sfx.data (by decide) (by decide) h1 h2 h3]
    rw [rfa_first_of_two 'n' ['i', 'c', 'k', 'n', 'a', 'm', 'e'] t1.data t2.data t3.data
      nick.data h1]
    rw [replaceFirstAux_skip ('f' :: ['r', 'i', 'e', 'n', 'd', 'l', 'y', 'N', 'u', 'm', 'b', 'e', 'r'])
      fnum.data t1.data _ h1]
    rw [replaceFirstAux_skip ('f' :: ['r', 'i', 'e', 'n', 'd', 'l', 'y', 'N', 'u', 'm', 'b', 'e', 'r'])
      fnum.data nick.data _ hn]
    rw [replaceFirstAux_skip ('f' :: ['r', 'i', 'e', 'n', 'd', 'l', 'y', 'N', 'u', 'm', 'b', 'e', 'r'])
      fnum.data t2.data _ h2]
    rw [show ('$' :: 'n' :: ['i', 'c', 'k', 'n', 'a', 'm', 'e']) ++ t3.data
      = '$' :: 'n' :: (['i', 'c', 'k', 'n', 'a', 'm', 'e'] ++ t3.data) from by simp]
    rw [replaceFirstAux_skip_site 'f' ['r', 'i', 'e', 'n', 'd', 'l', 'y', 'N', 'u', 'm', 'b', 'e', 'r']
      'n' ['i', 'c', 'k', 'n', 'a', 'm', 'e'] t3.data fnum.data (by decide) (by decide)]
    rw [replaceFirstAux_no_dollar _ _ _ h3]
  · apply strEq_of_data
    show replaceFirstAux ("$friendlyNumber".data) fnum.data
        (replaceFirstAux ("$nickname".data) nick.data
          (replaceFirstAux ("$suffix".data) sfx.data
            ((t1 ++ ("$friendlyNumber" ++ (t2 ++ ("$friendlyNumber" ++ t3)))).data)))
      = (t1 ++ (fnum ++ (t2 ++ ("$friendlyNumber" ++ t3)))).data
    simp only [sdata_append]
    rw [rfa_two_sites 's' ['u', 'f', 'f', 'i', 'x'] 'f'
      ['r', 'i', 'e', 'n', 'd', 'l', 'y', 'N', 'u', 'm', 'b', 'e', 'r']
      t1.data t2.data t3.data sfx.data (by decide) (by decide) h1 h2 h3]
    rw [rfa_two_sites 'n' ['i', 'c', 'k', 'n', 'a', 'm', 'e'] 'f'
      ['r', 'i', 'e', 'n', 'd', 'l', 'y', 'N', 'u', 'm', 'b', 'e', 'r']
      t1.data t2.data t3.data nick.data (by decide) (by decide) h1 h2 h3]
    rw [rfa_first_of_two 'f' ['r', 'i', 'e', 'n', 'd', 'l', 'y', 'N', 'u', 'm', 'b', 'e', 'r']
      t1.data t2.data t3.data fnum.data h1]

/-- Witness for C10 at concrete template pieces and values. -/
theorem formatFriendlyName_first_occurrence_only_witness :
    formatFriendlyName ("x" ++ ("$suffix" ++ ("-" ++ ("$suffix" ++ "y")))) "s1" "dual" "001"
        = "x" ++ ("s1" ++ ("-" ++ ("$suffix" ++ "y")))
  ∧ formatFriendlyName ("x" ++ ("$nickname" ++ ("-" ++ ("$nickname" ++ "y")))) "s1" "dual" "001"
        = "x" ++ ("dual" ++ ("-" ++ ("$nickname" ++ "y")))
  ∧ formatFriendlyName ("x" ++ ("$friendlyNumber" ++ ("-" ++ ("$friendlyNumber" ++ "y")))) "s1"
        "dual" "001"
        = "x" ++ ("001" ++ ("-" ++ ("$friendlyNumber" ++ "y"))) := by
  exact formatFriendlyName_first_occurrence_only "x" "-" "y" "s1" "dual" "001"
    (by decide) (by decide) (by decide) (by decide) (by decide) (by decide)

/- ----------------------------------------------------------------
   src/services/NetworkGenesisService.ts
   ---------------------------------------------------------------- -/

/-- Floor base-2 logarithm with explicit fuel, so that it reduces inside the
kernel (the fuel only bounds the recursion depth; the argument itself is
ample fuel). -/
def log2fuel : Nat → Nat → Nat
  | 0, _ => 0
  | fuel + 1, n => if n < 2 then 0 else log2fuel fuel (n / 2) + 1

/-- Floor base-2 logarithm. -/
def log2n (n : Nat) : Nat :=
  log2fuel n n

/-- Round a non-negative integer to 53 significant bits with ties to even:
the value of the IEEE-754 binary64 double nearest to it. Faithful below the
double overflow threshold. -/
def floatRound53 (n : Nat) : Nat :=
  if n < 2 ^ 53 then n
  else
    let e := log2n n - 52
    let q := n / 2 ^ e
    let r := n % 2 ^ e
    let h := 2 ^ (e - 1)
    let q1 := if r < h then q else if h < r then q + 1 else if q % 2 = 0 then q else q + 1
    q1 * 2 ^ e

/-- JS number multiplication of two exactly representable non-negative
integers: IEEE-754 binary64 rounds the exact product to 53 significant
bits. -/
def jsMul (a b : Nat) : Nat := floatRound53 (a * b)

theorem floatRound53_small (n : Nat) (h : n < 2 ^ 53) : floatRound53 n = n := by
  unfold floatRound53
  rw [if_pos h]

/-- One mosaic of the resolved network preset (`divisibility` may be
undefined). -/
structure MosaicPreset where
  divisibility : Option Nat
deriving DecidableEq, Repr

/-- The `nemesis` block of the resolved network preset. -/
structure NemesisPresetModel where
  mosaics : Option (List MosaicPreset)
deriving DecidableEq, Repr

/-- The fields of the resolved network preset consumed by `generateNemesis`.
The preset itself is produced by `updateNetworkPreset` from external preset
files; it enters the model as an input. -/
structure NetworkPresetModel where
  nemesisGenerationHashSeed : Option String
  nemesis : Option NemesisPresetModel
  votingKeyDesiredLifetime : Option Nat
deriving DecidableEq, Repr

/-- One entry of the `nemesisBalances` accumulator. -/
structure NemesisBalanceEntry where
  mosaicIndex : Nat
  address : String
  amount : Nat
deriving DecidableEq, Repr

/-- The `nemesisPreset.mosaics.forEach` body of `generateNemesis` for one
node, indexed from `start`: `node.balances[mosaicIndex] || 0`; a truthy
(nonzero) balance requires a defined divisibility and appends an entry with
amount `nodeBalance * 10 ** divisibility` (JS double multiplication). -/
def nodeNemesisBalancesAux (balances : List Nat) (address : String) :
    List MosaicPreset → Nat → Except String (List NemesisBalanceEntry)
  | [], _ => Except.ok []
  | m :: rest, mosaicIndex =>
    let nodeBalance := balances.getD mosaicIndex 0
    if nodeBalance ≠ 0 then
      match m.divisibility with
      | none => Except.error "Divisibility should be defined!!"
      | some divisibility =>
        match nodeNemesisBalancesAux balances address rest (mosaicIndex + 1) with
        | Except.error e => Except.error e
        | Except.ok entries =>
          let entry : NemesisBalanceEntry :=
            { mosaicIndex := mosaicIndex, address := address,
              amount := jsMul nodeBalance (10 ^ divisibility) }
          Except.ok (entry :: entries)
    else
      nodeNemesisBalancesAux balances address rest (mosaicIndex + 1)

/-- The balance-distribution entries generated for one node. -/
def nodeNemesisBalances (mosaics : List MosaicPreset) (node : NodeInformation)
    (mainAddress : String) : Except String (List NemesisBalanceEntry) :=
  nodeNemesisBalancesAux node.balances mainAddress mosaics 0

/-- Whether `suffix` is a suffix of `s` (JS `String.endsWith`), computed over
the reversed character lists. -/
def strEndsWith (s suffix : String) : Bool :=
  leadsWith suffix.data.reverse s.data.reverse

/-- Model of the symbol-bootstrap `YamlUtils.isYmlFile`. -/
def isYmlFile (s : String) : Bool :=
  strEndsWith s ".yml" || strEndsWith s ".yaml"

/-- JS truthiness of an optional string field (undefined and the empty string
are falsy). -/
def truthyOptStr : Option String → Bool
  | none => false
  | some s => s ≠ ""

/-- Model of `fs.existsSync` over the modelled set of existing paths. -/
def existsSync (disk : List String) (path : String) : Bool :=
  decide (path ∈ disk)

/-- The guards at the head of `generateNemesis`: the preset must be a yml file
of a new network, and an existing recorded nemesis seed folder without
`--regenerate` aborts. -/
def generateNemesisChecks (input : NetworkFile) (disk : List String) (regenerate : Bool) :
    Except String Unit :=
  if !(isYmlFile input.preset) || !input.isNewNetwork then
    Except.error "You are creating nodes for an existing network. Nemesis cannot be generated!"
  else if truthyOptStr input.nemesisSeedFolder
      && (match input.nemesisSeedFolder with
          | some f => existsSync disk f
          | none => false)
      && !regenerate then
    Except.error "The nemesis block has been previously generated. Use --regenerate."
  else
    Except.ok ()

/-- Models the JS boolean coercion of a Promise: the predicate passed to
`Array.prototype.find` in `generateNemesis` is an async arrow function, so its
value is a Promise object, which is truthy for every element whatever boolean
it would resolve to. -/
def promiseAsBool (resolvesTo : Bool) : Bool :=
  true

/-- The bootstrap/build candidate selection of `generateNemesis`:
`input.nodes.find(async (n) => { ... return metadata.harvesting; })`. -/
def candidateNode (nodes : List NodeInformation) : Option NodeInformation :=
  nodes.find? (fun n => promiseAsBool (nodesMetadata n.nodeType).harvesting)

/-- The per-node loop of `generateNemesis` restricted to the balance
accumulation: service-only nodes are skipped, every other node contributes its
entries against its Main account address (resolved through the key store,
abstracted here as `mainAddressOf`). The link-transaction and peer-descriptor
accumulation is elided: no claim concerns it. -/
def allNodesBalances (mosaics : List MosaicPreset) (mainAddressOf : NodeInformation → String) :
    List NodeInformation → Except String (List NemesisBalanceEntry)
  | [] => Except.ok []
  | node :: rest =>
    if (nodesMetadata node.nodeType).services then allNodesBalances mosaics mainAddressOf rest
    else
      match nodeNemesisBalances mosaics node (mainAddressOf node) with
      | Except.error e => Except.error e
      | Except.ok entries =>
        match allNodesBalances mosaics mainAddressOf rest with
        | Except.error e => Except.error e
        | Except.ok more => Except.ok (entries ++ more)

/-- The outcome of the modelled `generateNemesis`: the accumulated balance
distribution and the selected bootstrap/build candidate node. -/
structure GenesisOutcome where
  nemesisBalances : List NemesisBalanceEntry
  candidate : NodeInformation
deriving DecidableEq, Repr

/-- `NetworkGenesisService.generateNemesis`: precondition guards, resolution
checks on the network preset, the per-node balance loop, and the candidate
selection, in source order (faucet and additional-currency distributions and
the transaction ledger are elided: no claim concerns them). -/
def generateNemesis (input : NetworkFile) (disk : List String)
    (networkPreset : NetworkPresetModel) (mainAddressOf : NodeInformation → String)
    (regenerate : Bool) : Except String GenesisOutcome :=
  match generateNemesisChecks input disk regenerate with
  | Except.error e => Except.error e
  | Except.ok _ =>
    if !(truthyOptStr networkPreset.nemesisGenerationHashSeed) then
      Except.error "nemesisGenerationHashSeed could not be resolved"
    else
      match networkPreset.nemesis with
      | none => Except.error "Nemesis must be resolved from network preset!"
      | some nemesisPreset =>
        match nemesisPreset.mosaics with
        | none => Except.error "Network nemesis mosaics must be found!"
        | some mosaics =>
          match allNodesBalances mosaics mainAddressOf input.nodes with
          | Except.error e => Except.error e
          | Except.ok nemesisBalances =>
            match candidateNode input.nodes with
            | none => Except.error "No Candidate Node!!"
            | some node =>
              Except.ok { nemesisBalances := nemesisBalances, candidate := node }

/-- C6: `generateNemesis` fails before producing any genesis state when the
loaded network is not flagged as a new network; when a nemesis seed folder is
recorded and exists on disk, a call without regenerate fails with the
already-generated error, while a call with regenerate passes the
preconditions. -/
theorem generateNemesis_preconditions (input : NetworkFile) (disk : List String)
    (networkPreset : NetworkPresetModel) (mainAddressOf : NodeInformation → String)
    (f : String) :
    (input.isNewNetwork = false → ∀ regenerate,
      generateNemesis input disk networkPreset mainAddressOf regenerate
        = Except.error
            "You are creating nodes for an existing network. Nemesis cannot be generated!")
  ∧ (isYmlFile input.preset = true → input.isNewNetwork = true →
      input.nemesisSeedFolder = some f → f ≠ "" → f ∈ disk →
      generateNemesis input disk networkPreset mainAddressOf false
        = Except.error "The nemesis block has been previously generated. Use --regenerate.")
  ∧ (isYmlFile input.preset = true → input.isNewNetwork = true →
      generateNemesisChecks input disk true = Except.ok ()) := by
  refine ⟨?_, ?_, ?_⟩
  · intro h regenerate
    unfold generateNemesis generateNemesisChecks
    rw [h]
    simp
  · intro hyml hnew hseed hne hdisk
    unfold generateNemesis generateNemesisChecks
    rw [hyml, hnew, hseed]
    simp [truthyOptStr, existsSync, hne, hdisk]
  · intro hyml hnew
    unfold generateNemesisChecks
    rw [hyml, hnew]
    simp

/-- An input network whose seed folder is recorded. -/
def c6Input : NetworkFile :=
  { preset := "custom-network-preset.yml", networkType := 152, isNewNetwork := true,
    nemesisSeedFolder := some "nemesis-seed", faucetBalances := none, domain := "x",
    suffix := "s", friendlyNamePattern := "", nodes := [] }

/-- The same network not flagged as new. -/
def c6OldInput : NetworkFile :=
  { preset := "custom-network-preset.yml", networkType := 152, isNewNetwork := false,
    nemesisSeedFolder := some "nemesis-seed", faucetBalances := none, domain := "x",
    suffix := "s", friendlyNamePattern := "", nodes := [] }

/-- A fully resolved network preset for the genesis run. -/
def c6Preset : NetworkPresetModel :=
  { nemesisGenerationHashSeed := some "seed", nemesis := some { mosaics := some [] },
    votingKeyDesiredLifetime := some 100 }

/-- Witness for C6 over a workspace whose seed folder exists on disk. -/
theorem generateNemesis_preconditions_witness :
    generateNemesis c6OldInput ["nemesis-seed"] c6Preset (fun _ => "addr") true
        = Except.error
            "You are creating nodes for an existing network. Nemesis cannot be generated!"
  ∧ generateNemesis c6Input ["nemesis-seed"] c6Preset (fun _ => "addr") false
        = Except.error "The nemesis block has been previously generated. Use --regenerate."
  ∧ generateNemesisChecks c6Input ["nemesis-seed"] true = Except.ok () := by
  refine ⟨?_, ?_, ?_⟩
  · exact (generateNemesis_preconditions c6OldInput ["nemesis-seed"] c6Preset
      (fun _ => "addr") "nemesis-seed").1 rfl true
  · exact (generateNemesis_preconditions c6Input ["nemesis-seed"] c6Preset
      (fun _ => "addr") "nemesis-seed").2.1 (by decide) (by decide) (by decide) (by decide)
      (by decide)
  · exact (generateNemesis_preconditions c6Input ["nemesis-seed"] c6Preset
      (fun _ => "addr") "nemesis-seed").2.2 (by decide) (by decide)

theorem nodeNemesisBalancesAux_mem_of_ne (balances : List Nat) (address : String)
    (mosaics : List MosaicPreset) :
    ∀ (start : Nat) (entries : List NemesisBalanceEntry),
      nodeNemesisBalancesAux balances address mosaics start = Except.ok entries →
      ∀ (i : Nat) (hi : i < mosaics.length) (d : Nat),
        (mosaics.get ⟨i, hi⟩).divisibility = some d →
        balances.getD (start + i) 0 ≠ 0 →
        ({ mosaicIndex := start + i, address := address,
           amount := jsMul (balances.getD (start + i) 0) (10 ^ d) } : NemesisBalanceEntry)
          ∈ entries := by
  induction mosaics with
  | nil =>
    intro start entries h i hi
    exact absurd hi (by simp)
  | cons m rest ih =>
    intro start entries h i hi d hd hb
    rw [nodeNemesisBalancesAux] at h
    simp only [] at h
    cases i with
    | zero =>
      simp only [Nat.add_zero] at hb ⊢
      simp only [List.get] at hd
      rw [if_pos hb, hd] at h
      cases haux : nodeNemesisBalancesAux balances address rest (start + 1) with
      | error e => rw [haux] at h; simp at h
      | ok es =>
        rw [haux] at h
        simp only [Except.ok.injEq] at h
        rw [← h]
        exact List.mem_cons_self _ _
    | succ j =>
      have heq : start + (j + 1) = (start + 1) + j := by omega
      rw [heq] at hb ⊢
      simp only [List.get] at hd
      have hj : j < rest.length := by simpa using Nat.lt_of_succ_lt_succ hi
      by_cases hb0 : balances.getD start 0 ≠ 0
      · rw [if_pos hb0] at h
        cases hdm : m.divisibility with
        | none => rw [hdm] at h; simp at h
        | some d0 =>
          rw [hdm] at h
          cases haux : nodeNemesisBalancesAux balances address rest (start + 1) with
          | error e => rw [haux] at h; simp at h
          | ok es =>
            rw [haux] at h
            simp only [Except.ok.injEq] at h
            rw [← h]
            exact List.mem_cons_of_mem _ (ih (start + 1) es haux j hj d hd hb)
      · rw [if_neg hb0] at h
        exact ih (start + 1) entries h j hj d hd hb

theorem nodeNemesisBalancesAux_index_spec (balances : List Nat) (address : String)
    (mosaics : List MosaicPreset) :
    ∀ (start : Nat) (entries : List NemesisBalanceEntry),
      nodeNemesisBalancesAux balances address mosaics start = Except.ok entries →
      ∀ e ∈ entries, ∃ j, j < mosaics.length ∧ e.mosaicIndex = start + j
        ∧ balances.getD (start + j) 0 ≠ 0 := by
  induction mosaics with
  | nil =>
    intro start entries h e he
    rw [nodeNemesisBalancesAux] at h
    simp only [Except.ok.injEq] at h
    rw [← h] at he
    simp at he
  | cons m rest ih =>
    intro start entries h e he
    rw [nodeNemesisBalancesAux] at h
    simp only [] at h
    by_cases hb0 : balances.getD start 0 ≠ 0
    · rw [if_pos hb0] at h
      cases hdm : m.divisibility with
      | none => rw [hdm] at h; simp at h
      | some d0 =>
        rw [hdm] at h
        cases haux : nodeNemesisBalancesAux balances address rest (start + 1) with
        | error er => rw [haux] at h; simp at h
        | ok es =>
          rw [haux] at h
          simp only [Except.ok.injEq] at h
          rw [← h] at he
          rcases List.mem_cons.mp he with he | he
          · refine ⟨0, by simp, ?_, ?_⟩
            · simp [he]
            · simpa using hb0
          · obtain ⟨j, hj, hidx, hbal⟩ := ih (start + 1) es haux e he
            refine ⟨j + 1, by simpa using Nat.succ_lt_succ hj, ?_, ?_⟩
            · rw [hidx]; omega
            · have heq : start + (j + 1) = (start + 1) + j := by omega
              rw [heq]; exact hbal
    · rw [if_neg hb0] at h
      obtain ⟨j, hj, hidx, hbal⟩ := ih (start + 1) entries h e he
      refine ⟨j + 1, by simpa using Nat.succ_lt_succ hj, ?_, ?_⟩
      · rw [hidx]; omega
      · have heq : start + (j + 1) = (start + 1) + j := by omega
        rw [heq]; exact hbal

/-- C7 (amended): for every node, mosaic with defined divisibility d and
declared balance b, a nonzero b yields a balance-distribution entry against
the node's Main address whose amount equals b * 10^d exactly whenever the
product is below 2^53 (the balances are JS numbers: a larger product is
rounded to 53-bit double precision); b = 0 yields no entry for that mosaic
index. -/
theorem nodeNemesisBalances_scaling (mosaics : List MosaicPreset) (node : NodeInformation)
    (address : String) (entries : List NemesisBalanceEntry) (i d : Nat)
    (h : nodeNemesisBalances mosaics node address = Except.ok entries)
    (hi : i < mosaics.length)
    (hd : (mosaics.get ⟨i, hi⟩).divisibility = some d) :
    (node.balances.getD i 0 = 0 → ∀ e ∈ entries, e.mosaicIndex ≠ i)
  ∧ (node.balances.getD i 0 ≠ 0 → node.balances.getD i 0 * 10 ^ d < 2 ^ 53 →
      ({ mosaicIndex := i, address := address,
         amount := node.balances.getD i 0 * 10 ^ d } : NemesisBalanceEntry) ∈ entries) := by
  constructor
  · intro hzero e he hidx
    obtain ⟨j, hj, hidx', hbal⟩ :=
      nodeNemesisBalancesAux_index_spec node.balances address mosaics 0 entries h e he
    rw [hidx] at hidx'
    have : j = i := by omega
    rw [this] at hbal
    simp only [Nat.zero_add] at hbal
    exact hbal hzero
  · intro hne hsmall
    have hmem := nodeNemesisBalancesAux_mem_of_ne node.balances address mosaics 0 entries h i
      (by simpa using hi) d (by simpa using hd) (by simpa using hne)
    have hj : jsMul (node.balances.getD (0 + i) 0) (10 ^ d)
        = node.balances.getD i 0 * 10 ^ d := by
      simp only [Nat.zero_add]
      exact floatRound53_small _ hsmall
    rw [hj] at hmem
    simpa using hmem

/-- A node declaring the largest exactly representable balance. -/
def c7Node : NodeInformation :=
  { number := 1, nickName := "peer", friendlyName := "p-001", assembly := "peer",
    hostname := "p-001.x", nodeType := NodeMetadataType.Peer, restProtocol := none,
    balances := [9007199254740991] }

/-- C7 counterexample: at balance b = 2^53 - 1 and divisibility 1 the code
stores the rounded double 90071992547409904, while b * 10^1 =
90071992547409910: the JS multiplication `balance * 10 ** divisibility` loses
precision, so the amount is not exactly b * 10^d for every b and d. -/
theorem nodeNemesisBalances_rounding_loss :
    nodeNemesisBalances [{ divisibility := some 1 }] c7Node "addr"
        = Except.ok [{ mosaicIndex := 0, address := "addr", amount := 90071992547409904 }]
  ∧ 9007199254740991 * 10 ^ 1 = 90071992547409910
  ∧ (90071992547409904 : Nat) ≠ 90071992547409910 := by
  refine ⟨by decide, by decide, by decide⟩

/-- A two-mosaic preset with divisibilities 2 and 0. -/
def c7Mosaics : List MosaicPreset :=
  [{ divisibility := some 2 }, { divisibility := some 0 }]

/-- A node with balance 500 for the first mosaic and none for the second. -/
def c7SmallNode : NodeInformation :=
  { number := 1, nickName := "peer", friendlyName := "p-001", assembly := "peer",
    hostname := "p-001.x", nodeType := NodeMetadataType.Peer, restProtocol := none,
    balances := [500] }

/-- Witness for the amended C7: balance 500 at divisibility 2 produces the
exact amount 50000, and the zero balance of the second mosaic produces no
entry. -/
theorem nodeNemesisBalances_scaling_witness :
    ({ mosaicIndex := 0, address := "a", amount := 50000 } : NemesisBalanceEntry)
        ∈ [({ mosaicIndex := 0, address := "a", amount := 50000 } : NemesisBalanceEntry)]
  ∧ ∀ e ∈ [({ mosaicIndex := 0, address := "a", amount := 50000 } : NemesisBalanceEntry)],
      e.mosaicIndex ≠ 1 := by
  constructor
  · have h := (nodeNemesisBalances_scaling c7Mosaics c7SmallNode "a"
      [{ mosaicIndex := 0, address := "a", amount := 50000 }] 0 2 rfl (by decide) rfl).2
      (by decide) (by decide)
    simpa using h
  · have h := (nodeNemesisBalances_scaling c7Mosaics c7SmallNode "a"
      [{ mosaicIndex := 0, address := "a", amount := 50000 }] 1 0 rfl (by decide) rfl).1
      (by decide)
    simpa using h

/-- A non-harvesting api node. -/
def c1ApiNode : NodeInformation :=
  { number := 1, nickName := "api", friendlyName := "api-001", assembly := "api",
    hostname := "api-001.x", nodeType := NodeMetadataType.Api, restProtocol := none,
    balances := [1000, 0] }

/-- A harvesting-capable voting dual node placed after the api node. -/
def c1DualNode : NodeInformation :=
  { number := 2, nickName := "dual", friendlyName := "dual-001", assembly := "dual",
    hostname := "dual-001.x", nodeType := NodeMetadataType.VotingDual, restProtocol := none,
    balances := [3000000, 150] }

/-- A new-network file whose only node is the non-harvesting api node. -/
def c1Input : NetworkFile :=
  { preset := "custom-network-preset.yml", networkType := 152, isNewNetwork := true,
    nemesisSeedFolder := none, faucetBalances := none, domain := "x", suffix := "s",
    friendlyNamePattern := "", nodes := [c1ApiNode] }

/-- A resolved preset with two zero-divisibility mosaics. -/
def c1Preset : NetworkPresetModel :=
  { nemesisGenerationHashSeed := some "seed",
    nemesis := some { mosaics := some [{ divisibility := some 0 }, { divisibility := some 0 }] },
    votingKeyDesiredLifetime := some 100 }

/-- The outcome produced for the api-node-only topology: the api node itself
is selected as the candidate. -/
def c1Outcome : GenesisOutcome :=
  { nemesisBalances := [{ mosaicIndex := 0, address := "addr", amount := 1000 }],
    candidate := c1ApiNode }

/-- C1 (code bug): the bootstrap/build candidate is selected with
`Array.prototype.find` over an async predicate; the Promise it returns is
truthy for every element, so the first node is selected even though it is not
harvesting-capable while a harvesting node exists further down the list, and a
topology containing no harvesting-capable node at all still succeeds instead
of failing with the no-candidate error. -/
theorem generateNemesis_candidate_ignores_harvesting :
    candidateNode [c1ApiNode, c1DualNode] = some c1ApiNode
  ∧ (nodesMetadata c1ApiNode.nodeType).harvesting = false
  ∧ (nodesMetadata c1DualNode.nodeType).harvesting = true
  ∧ generateNemesis c1Input [] c1Preset (fun _ => "addr") false = Except.ok c1Outcome := by
  refine ⟨rfl, rfl, rfl, by decide⟩

end SymbolNetwork
